import Mathlib

/-!
Shallow embedding of the Connection Lifecycle & Runtime-Bridge subsystem of
joycontrol-gui (src/main.py, class JoyControlGUI and class AsyncWorker).

The GUI object's mutable fields become a `GUIState` record; each Qt slot or
method becomes a pure state-transition function.  Work dispatched to the
background asyncio loop via `run_async` is recorded as a `List Work` output
rather than performed.  Purely presentational side effects (message boxes,
log lines, stylesheet strings) are omitted except for the label/button texts
the methods assign, which are kept as string fields.
-/

namespace JoyControl

deriving instance DecidableEq for Except

/-- The fixed controller-button set created by `create_pro_controller_layout`:
d-pad (up/left/right/down), system (minus/home/plus/capture), action
(x/y/b/a), shoulders (l/zl/r/zr) and stick clicks (l_stick/r_stick).
Both `button_widgets` and `button_states` are keyed by exactly this set. -/
inductive Button
  | up | left | right | down
  | minus | home | plus | capture
  | x | y | b | a
  | l | zl | r | zr
  | l_stick | r_stick
  deriving DecidableEq, Repr

/-- The transport object returned by `create_hid_server`, as observed by the
GUI: the `is_closing()` flag, whether the `_itr_sock` attribute exists, and
the outcome of `_itr_sock.getpeername()` (`Except.error` models the raised
exception; `Except.ok none` models a falsy peer-info tuple; `Except.ok
(some a)` models a tuple whose first element is the address `a`). -/
structure Transport where
  is_closing : Bool
  has_itr_sock : Bool
  peername : Except String (Option String)
  deriving DecidableEq, Repr

/-- The protocol object: the GUI only reads `self.protocol.transport is None`. -/
structure Protocol where
  transport : Option Unit
  deriving DecidableEq, Repr

/-- An `AsyncWorker` created by `connect`; `coro_addr` is the reconnect
address captured by the `_connect_async` coroutine it runs. -/
structure Worker where
  coro_addr : Option String
  deriving DecidableEq, Repr

/-- A unit of work dispatched to the background asyncio loop via
`run_async`: `transport.close()`, `button_press(...)` or
`button_release(...)`. -/
inductive Work
  | closeTransport
  | pressEvent (btn : Button)
  | releaseEvent (btn : Button)
  deriving DecidableEq, Repr

/-- The mutable fields of `JoyControlGUI`, plus the effective UID the
process runs under (read by `os.geteuid()`). -/
structure GUIState where
  connected : Bool
  controller_state : Option Unit
  transport : Option Transport
  protocol : Option Protocol
  reconnect_address : Option String
  reconnect_entry : String
  last_connected_address : Option String
  current_amiibo : Option String
  button_states : Button → Bool
  widgets_pressed : Button → Bool
  monitor_running : Bool
  connection_worker : Option Worker
  connect_btn_text : String
  connect_btn_enabled : Bool
  status_label : String
  connection_info : String
  amiibo_status : String
  euid : Nat

/-- Python truthiness of a string: non-empty. -/
def strTruthy (s : String) : Bool := s ≠ ""

/-- Python truthiness of an optional string: present and non-empty. -/
def optTruthy : Option String → Bool
  | none => false
  | some s => strTruthy s

/-- Python `a or o` where `a` is a string and `o` an optional string. -/
def pyOrStrOpt (a : String) (o : Option String) : Option String :=
  if strTruthy a then some a else o

/-- Python `a or d` where `a` is an optional string and `d` a default. -/
def pyOrOptStr (a : Option String) (d : String) : String :=
  match a with
  | some s => if strTruthy s then s else d
  | none => d

/-- Result of a `connect` call: the permission error, the
device-selection dialog being shown instead, or a connection attempt
started with the given address handed to the transport factory. -/
inductive ConnectResult
  | permissionDenied
  | dialogShown
  | started (factory_addr : Option String)
  deriving DecidableEq, Repr

/-- Python `str.strip()`: drop leading and trailing whitespace. -/
def pyStrip (s : String) : String :=
  String.mk
    (((s.data.dropWhile Char.isWhitespace).reverse.dropWhile
      Char.isWhitespace).reverse)

/-- The address `connect` computes:
`self.reconnect_entry.text().strip() or self.reconnect_address`. -/
def effectiveReconnectAddr (s : GUIState) : Option String :=
  pyOrStrOpt (pyStrip s.reconnect_entry) s.reconnect_address

/-- `JoyControlGUI.connect(start_fresh=False)` (src/main.py:1012).
Checks `os.geteuid() != 0`; computes the reconnect address; with no
address and `start_fresh` false it shows the connection dialog; otherwise
it flips the UI to "Connecting...", builds the `_connect_async` coroutine
with `None if start_fresh else reconnect_addr`, and starts an
`AsyncWorker` with it.  There is no guard on `self.connected` or on an
existing `self.connection_worker`. -/
def connect (s : GUIState) (start_fresh : Bool) : GUIState × ConnectResult :=
  if s.euid ≠ 0 then
    (s, ConnectResult.permissionDenied)
  else
    let reconnect_addr := effectiveReconnectAddr s
    if !optTruthy reconnect_addr && !start_fresh then
      (s, ConnectResult.dialogShown)
    else
      let final_addr := if start_fresh then none else reconnect_addr
      ({ s with
          connect_btn_text := "Connecting...",
          connect_btn_enabled := false,
          status_label := "Connecting...",
          connection_worker := some { coro_addr := final_addr } },
       ConnectResult.started final_addr)

/-- `JoyControlGUI.disconnect` (src/main.py:1126).  Stops the monitor
timer, cancels and joins a running worker, submits `transport.close()`
when a transport exists, clears the connection fields, the address fields
(`reconnect_address`, entry text, `_last_connected_address`) and resets
the connection UI.  It does not touch `current_amiibo`, `button_states`
or the button widgets. -/
def disconnect (s : GUIState) : GUIState × List Work :=
  ({ s with
      monitor_running := false,
      connected := false,
      controller_state := none,
      transport := none,
      protocol := none,
      connection_worker := none,
      reconnect_address := none,
      reconnect_entry := "",
      last_connected_address := none,
      connect_btn_text := "Connect",
      connect_btn_enabled := true,
      status_label := "Disconnected",
      connection_info := "Click Connect to choose your Nintendo Switch" },
   if s.transport.isSome then [Work.closeTransport] else [])

/-- `JoyControlGUI.toggle_connection` (src/main.py:1006): the Connect
button's slot — `disconnect()` when connected, else `connect()`. -/
def toggle_connection (s : GUIState) : GUIState × Option ConnectResult :=
  if s.connected then
    ((disconnect s).1, none)
  else
    let p := connect s false
    (p.1, some p.2)

/-- `JoyControlGUI.handle_connection_lost` (src/main.py:1195).  Returns
unchanged when not connected; otherwise clears the connection fields,
stops the monitor, clears `reconnect_address` and the entry text while
leaving `_last_connected_address` alone, resets the UI, ejects the
amiibo, and resets every button widget and `button_states` entry to
released.  The trailing "reconnect?" message box is a UI prompt whose
accepted branch schedules `auto_reconnect`, modelled separately. -/
def handle_connection_lost (s : GUIState) : GUIState :=
  if !s.connected then s
  else
    { s with
        connected := false,
        controller_state := none,
        transport := none,
        protocol := none,
        monitor_running := false,
        reconnect_address := none,
        reconnect_entry := "",
        connect_btn_text := "Connect",
        connect_btn_enabled := true,
        status_label := "Connection Lost",
        connection_info := "Connection Lost - Click Connect to Reconnect",
        current_amiibo := none,
        amiibo_status := "No amiibo loaded",
        button_states := fun _ => false,
        widgets_pressed := fun _ => false }

/-- `self.protocol and self.protocol.transport is None`
(src/main.py:1177). -/
def protocolTransportGone (s : GUIState) : Bool :=
  match s.protocol with
  | some p => p.transport.isNone
  | none => false

/-- `self.transport and (self.transport.is_closing() or not
hasattr(self.transport, "_itr_sock"))` (src/main.py:1182). -/
def transportClosingOrInvalid (s : GUIState) : Bool :=
  match s.transport with
  | some t => t.is_closing || !t.has_itr_sock
  | none => false

/-- `JoyControlGUI.check_connection_status` (src/main.py:1172): the
monitor-timer tick.  Early-returns when not connected; otherwise calls
`handle_connection_lost` when the protocol's transport is gone or the
transport is closing / lacks `_itr_sock`.  All inspected values are
attribute reads and the `is_closing()` flag — no I/O is issued. -/
def check_connection_status (s : GUIState) : GUIState :=
  if !s.connected then s
  else if protocolTransportGone s then handle_connection_lost s
  else if transportClosingOrInvalid s then handle_connection_lost s
  else s

/-- Result of `auto_reconnect`: either the device-selection dialog is
shown, or `connect()` is called and returns the wrapped result. -/
inductive ReconnectResult
  | dialogShown
  | connectAttempt (r : ConnectResult)
  deriving DecidableEq, Repr

/-- `JoyControlGUI.auto_reconnect` (src/main.py:1246).  When
`_last_connected_address` is truthy it is copied into
`reconnect_address` and the entry text and `connect()` is called;
otherwise the connection dialog is shown. -/
def auto_reconnect (s : GUIState) : GUIState × ReconnectResult :=
  match s.last_connected_address with
  | some a =>
    if strTruthy a then
      let s1 := { s with reconnect_address := some a, reconnect_entry := a }
      let p := connect s1 false
      (p.1, ReconnectResult.connectAttempt p.2)
    else
      (s, ReconnectResult.dialogShown)
  | none => (s, ReconnectResult.dialogShown)

/-- `JoyControlGUI.on_button_press` (src/main.py:1271).  Guarded by
`not self.connected or not self.controller_state`: a plain `return`.
Otherwise it marks the button pressed in `button_states` and in the
widget's visual state and submits `button_press(...)` to the loop.
(Every `Button` has a widget, so the `in self.button_widgets` membership
test always succeeds.) -/
def on_button_press (s : GUIState) (btn : Button) : GUIState × List Work :=
  if !s.connected || s.controller_state.isNone then
    (s, [])
  else
    ({ s with
        button_states := fun b2 => if b2 = btn then true else s.button_states b2,
        widgets_pressed := fun b2 => if b2 = btn then true else s.widgets_pressed b2 },
     [Work.pressEvent btn])

/-- `JoyControlGUI.on_button_release` (src/main.py:1286).  The guard
branch is not a plain return: it first sets the widget's visual pressed
state to `False`.  The connected branch clears `button_states`, the
widget state, and submits `button_release(...)`. -/
def on_button_release (s : GUIState) (btn : Button) : GUIState × List Work :=
  if !s.connected || s.controller_state.isNone then
    ({ s with
        widgets_pressed := fun b2 => if b2 = btn then false else s.widgets_pressed b2 },
     [])
  else
    ({ s with
        button_states := fun b2 => if b2 = btn then false else s.button_states b2,
        widgets_pressed := fun b2 => if b2 = btn then false else s.widgets_pressed b2 },
     [Work.releaseEvent btn])

/-- The address computation in the success branch of
`JoyControlGUI.on_connection_finished` (src/main.py:1091): start from
"Unknown"; when the transport has `_itr_sock`, read `getpeername()` —
a truthy tuple contributes its first element, a falsy result or a raised
exception falls back to `self.reconnect_address or "Unknown"`; a missing
transport or `_itr_sock` falls back the same way. -/
def computed_addr (s : GUIState) : String :=
  match s.transport with
  | some t =>
    if t.has_itr_sock then
      match t.peername with
      | Except.ok (some a) => a
      | Except.ok none => pyOrOptStr s.reconnect_address "Unknown"
      | Except.error _ => pyOrOptStr s.reconnect_address "Unknown"
    else pyOrOptStr s.reconnect_address "Unknown"
  | none => pyOrOptStr s.reconnect_address "Unknown"

/-- `JoyControlGUI.on_connection_finished` (src/main.py:1081), the
`AsyncWorker.finished` slot.  On success it flips the UI to Connected,
stores the computed address in `_last_connected_address` only when it is
not the "Unknown" placeholder, and starts the monitor timer.  On failure
it reports the message (message box, omitted) and resets the connection
UI.  Either way the worker reference is dropped. -/
def on_connection_finished (s : GUIState) (success : Bool) : GUIState :=
  if success then
    let addr := computed_addr s
    { s with
        status_label := "Connected",
        connect_btn_text := "Disconnect",
        connect_btn_enabled := true,
        last_connected_address :=
          if addr ≠ "Unknown" then some addr else s.last_connected_address,
        connection_info := "Connected to: " ++ addr,
        monitor_running := true,
        connection_worker := none }
  else
    { s with
        connect_btn_text := "Connect",
        connect_btn_enabled := true,
        connection_info := "Click Connect to choose your Nintendo Switch",
        connection_worker := none }

/-- Observable state of the background asyncio loop:
`absent` — `self.async_loop` is `None`;
`running` — the loop thread is inside `run_forever`;
`stopped` — `stop()` ran but `close()` never did (the program never
closes its loop), so `is_closed()` is still false;
`closed` — `close()` ran. -/
inductive LoopState
  | absent | running | stopped | closed
  deriving DecidableEq, Repr

/-- Python truthiness of `self.async_loop`. -/
def loopTruthy : LoopState → Bool
  | LoopState.absent => false
  | _ => true

/-- `loop.is_closed()`. -/
def loopIsClosed : LoopState → Bool
  | LoopState.closed => true
  | _ => false

/-- A future scheduled with `run_coroutine_threadsafe` completes only
while the loop is actually running callbacks; on a stopped (but not
closed) loop the callback is enqueued and never executed. -/
def futureCompletes : LoopState → Bool
  | LoopState.running => true
  | _ => false

/-- What a call to `AsyncWorker.run` (src/main.py:581) does on its
thread: emit a `finished(success, message)` signal, or block forever in
`self.future.result()`. -/
inductive WorkerOutcome
  | emitted (success : Bool) (message : String)
  | blocked
  deriving DecidableEq, Repr

/-- `AsyncWorker.run` (src/main.py:581).  Guard:
`self.async_loop and not self.async_loop.is_closed()`.  Inside the guard
it submits the coroutine and blocks on `future.result()` with no
timeout; the result arrives only if the loop is running, so a stopped
loop blocks the worker thread forever.  Outside the guard it emits
`(False, "Async loop not available")`.  `coro_ok`/`coro_err` describe
the submitted coroutine's own outcome when it does run. -/
def asyncWorkerRun (ls : LoopState) (coro_ok : Bool) (coro_err : String) :
    WorkerOutcome :=
  if loopTruthy ls && !loopIsClosed ls then
    if futureCompletes ls then
      if coro_ok then WorkerOutcome.emitted true "Success"
      else WorkerOutcome.emitted false coro_err
    else WorkerOutcome.blocked
  else WorkerOutcome.emitted false "Async loop not available"

/-- What `JoyControlGUI.run_async` (src/main.py:749) returns to its
caller: `None` when the loop is absent; a raised `RuntimeError` from
`run_coroutine_threadsafe` when the loop is closed; otherwise a future
handle, which completes only while the loop runs. -/
inductive RunAsyncOutcome
  | noneReturned
  | raisedClosed
  | futureHandle (completes : Bool)
  deriving DecidableEq, Repr

/-- `JoyControlGUI.run_async` (src/main.py:749): `if self.async_loop:`
submit and return the future, else return `None`.  The call itself never
waits on the future. -/
def run_async (ls : LoopState) : RunAsyncOutcome :=
  if loopTruthy ls then
    if loopIsClosed ls then RunAsyncOutcome.raisedClosed
    else RunAsyncOutcome.futureHandle (futureCompletes ls)
  else RunAsyncOutcome.noneReturned

/-! ### Concrete sample states used by witnesses and counterexamples -/

/-- A healthy live transport with a readable peer address. -/
def sampleTransport : Transport :=
  { is_closing := false,
    has_itr_sock := true,
    peername := Except.ok (some "AA:BB:CC:DD:EE:FF") }

/-- A connected session: transport and protocol live, monitor running,
an amiibo loaded, every button currently held down, running as root. -/
def sampleConnected : GUIState :=
  { connected := true,
    controller_state := some (),
    transport := some sampleTransport,
    protocol := some { transport := some () },
    reconnect_address := some "AA:BB:CC:DD:EE:FF",
    reconnect_entry := "AA:BB:CC:DD:EE:FF",
    last_connected_address := some "AA:BB:CC:DD:EE:FF",
    current_amiibo := some "mario.bin",
    button_states := fun _ => true,
    widgets_pressed := fun _ => true,
    monitor_running := true,
    connection_worker := none,
    connect_btn_text := "Disconnect",
    connect_btn_enabled := true,
    status_label := "Connected",
    connection_info := "Connected to: AA:BB:CC:DD:EE:FF",
    amiibo_status := "mario.bin",
    euid := 0 }

/-- Mid-connect: a worker is running, the Connect button already shows
"Connecting..." and is disabled, nothing is connected yet. -/
def sampleConnecting : GUIState :=
  { sampleConnected with
      connected := false,
      controller_state := none,
      transport := none,
      protocol := none,
      current_amiibo := none,
      button_states := fun _ => false,
      widgets_pressed := fun _ => false,
      monitor_running := false,
      connection_worker := some { coro_addr := some "AA:BB:CC:DD:EE:FF" },
      connect_btn_text := "Connecting...",
      connect_btn_enabled := false,
      status_label := "Connecting...",
      amiibo_status := "No amiibo loaded" }

/-- After a detected loss: disconnected, but `_last_connected_address`
still holds the peer, and one widget is still visually pressed. -/
def sampleLost : GUIState :=
  { sampleConnected with
      connected := false,
      controller_state := none,
      transport := none,
      protocol := none,
      reconnect_address := none,
      reconnect_entry := "",
      current_amiibo := none,
      button_states := fun _ => false,
      monitor_running := false,
      connect_btn_text := "Connect",
      status_label := "Connection Lost",
      connection_info := "Connection Lost - Click Connect to Reconnect",
      amiibo_status := "No amiibo loaded" }

/-- A connected session whose transport has started closing: the next
monitor tick must detect the loss. -/
def sampleUnhealthy : GUIState :=
  { sampleConnected with
      transport := some { sampleTransport with is_closing := true } }

/-- An idle session run without root. -/
def sampleNonRoot : GUIState :=
  { sampleLost with
      last_connected_address := none,
      widgets_pressed := fun _ => false,
      euid := 1000 }

/-- An idle session (as root) with no transport and no addresses at all:
what a failed fresh pairing leaves behind. -/
def sampleFresh : GUIState :=
  { sampleNonRoot with euid := 0 }

/-! ### Claim theorems -/

/-- C1: from any Connected state, `handle_connection_lost` preserves
`_last_connected_address`, clears the connection handle (transport,
protocol, controller state), clears the loaded amiibo, stops the monitor
timer, and resets every `button_states` entry and every widget's visual
pressed state to released. -/
theorem handle_connection_lost_spec (s : GUIState) (h : s.connected = true) :
    (handle_connection_lost s).last_connected_address = s.last_connected_address ∧
    (handle_connection_lost s).transport = none ∧
    (handle_connection_lost s).protocol = none ∧
    (handle_connection_lost s).controller_state = none ∧
    (handle_connection_lost s).current_amiibo = none ∧
    (handle_connection_lost s).monitor_running = false ∧
    (∀ btn : Button, (handle_connection_lost s).button_states btn = false) ∧
    (∀ btn : Button, (handle_connection_lost s).widgets_pressed btn = false) := by
  simp [handle_connection_lost, h]

/-- Witness for C1 at the concrete connected state. -/
theorem handle_connection_lost_spec_witness :
    sampleConnected.connected = true ∧
    (handle_connection_lost sampleConnected).last_connected_address =
      sampleConnected.last_connected_address ∧
    (handle_connection_lost sampleConnected).button_states Button.a = false :=
  ⟨rfl, (handle_connection_lost_spec sampleConnected rfl).1,
    (handle_connection_lost_spec sampleConnected rfl).2.2.2.2.2.2.1 Button.a⟩

/-- C2 counterexample: from the concrete Connected state with an amiibo
loaded and button `a` pressed, `disconnect` leaves `current_amiibo` and
`button_states` untouched — it does not clear the auxiliary payload and
does not reset ButtonState, contrary to the claim. -/
theorem disconnect_keeps_amiibo_and_buttons :
    sampleConnected.connected = true ∧
    sampleConnected.current_amiibo = some "mario.bin" ∧
    sampleConnected.button_states Button.a = true ∧
    (disconnect sampleConnected).1.current_amiibo = some "mario.bin" ∧
    (disconnect sampleConnected).1.button_states Button.a = true :=
  ⟨rfl, rfl, rfl, rfl, rfl⟩

/-- C2 amended: from any Connected state, `disconnect` stops the
monitor, drops (after cancelling) the worker, submits `transport.close()`
exactly when a transport exists, clears the connection handle and all
address fields including `_last_connected_address` — but leaves
`current_amiibo`, `button_states` and the widgets' visual state
unchanged. -/
theorem disconnect_spec (s : GUIState) (h : s.connected = true) :
    (disconnect s).1.monitor_running = false ∧
    (disconnect s).1.connection_worker = none ∧
    (disconnect s).1.connected = false ∧
    (disconnect s).1.controller_state = none ∧
    (disconnect s).1.transport = none ∧
    (disconnect s).1.protocol = none ∧
    (disconnect s).1.reconnect_address = none ∧
    (disconnect s).1.reconnect_entry = "" ∧
    (disconnect s).1.last_connected_address = none ∧
    (disconnect s).1.current_amiibo = s.current_amiibo ∧
    (disconnect s).1.button_states = s.button_states ∧
    (disconnect s).1.widgets_pressed = s.widgets_pressed ∧
    (disconnect s).2 = (if s.transport.isSome then [Work.closeTransport] else []) := by
  simp [disconnect]

/-- Witness for C2's amended theorem at the concrete connected state. -/
theorem disconnect_spec_witness :
    sampleConnected.connected = true ∧
    (disconnect sampleConnected).1.last_connected_address = none ∧
    (disconnect sampleConnected).2 = [Work.closeTransport] :=
  ⟨rfl, (disconnect_spec sampleConnected rfl).2.2.2.2.2.2.2.2.1,
    ((disconnect_spec sampleConnected rfl).2.2.2.2.2.2.2.2.2.2.2.2).trans rfl⟩

/-- C9: whenever the effective UID is not 0, `connect` reports the
permission error and returns with the whole state unchanged — no worker
is started and no field is written. -/
theorem connect_permission_denied (s : GUIState) (fresh : Bool)
    (h : s.euid ≠ 0) :
    connect s fresh = (s, ConnectResult.permissionDenied) := by
  simp [connect, h]

/-- Witness for C9 at the concrete non-root state. -/
theorem connect_permission_denied_witness :
    sampleNonRoot.euid ≠ 0 ∧
    connect sampleNonRoot false = (sampleNonRoot, ConnectResult.permissionDenied) :=
  ⟨by decide, connect_permission_denied sampleNonRoot false (by decide)⟩

/-! ### Helper lemmas shared between claims -/

/-- `handle_connection_lost` always leaves the session disconnected:
the guard returns an already-disconnected state unchanged, and the
transition branch writes `connected := false`. -/
theorem handle_connection_lost_connected (s : GUIState) :
    (handle_connection_lost s).connected = false := by
  cases hc : s.connected <;> simp [handle_connection_lost, hc]

/-- One-if characterisation of the monitor tick. -/
theorem check_connection_status_char (s : GUIState) :
    check_connection_status s =
      if s.connected && (protocolTransportGone s || transportClosingOrInvalid s)
      then handle_connection_lost s else s := by
  cases hc : s.connected <;> cases h1 : protocolTransportGone s <;>
    cases h2 : transportClosingOrInvalid s <;>
    simp [check_connection_status, hc, h1, h2]

/-- `connect` never writes the address fields or the connected flag. -/
theorem connect_preserves_fields (s : GUIState) (fresh : Bool) :
    (connect s fresh).1.reconnect_address = s.reconnect_address ∧
    (connect s fresh).1.reconnect_entry = s.reconnect_entry ∧
    (connect s fresh).1.last_connected_address = s.last_connected_address ∧
    (connect s fresh).1.connected = s.connected := by
  simp only [connect]
  split
  · simp
  · split
    · simp
    · simp

/-! ### Claim theorems (continued) -/

/-- C3 counterexample: in the concrete Connecting state (a worker
already exists, the button already reads "Connecting..."), a second
`connect()` call is not refused: it returns `started` again and installs
a second, fresh worker.  No `AlreadyConnecting` outcome exists anywhere
in the code. -/
theorem connect_while_connecting_not_refused :
    sampleConnecting.connection_worker.isSome = true ∧
    sampleConnecting.connect_btn_text = "Connecting..." ∧
    (connect sampleConnecting false).2 =
      ConnectResult.started (some "AA:BB:CC:DD:EE:FF") ∧
    (connect sampleConnecting false).1.connection_worker =
      some { coro_addr := some "AA:BB:CC:DD:EE:FF" } := by
  refine ⟨rfl, rfl, ?_, ?_⟩ <;> decide

/-- C3 amended: `connect` has no concurrency guard of its own — run as
root with a truthy address it always starts a new worker, whatever the
current `connected`/worker state; concurrent attempts are prevented only
at the UI level: `connect` disables the Connect button before starting
the worker, and `toggle_connection` routes the button to `disconnect`
while connected. -/
theorem connect_no_concurrency_guard (s : GUIState) (h0 : s.euid = 0)
    (ha : optTruthy (effectiveReconnectAddr s) = true) :
    ((connect s false).2 = ConnectResult.started (effectiveReconnectAddr s) ∧
     (connect s false).1.connection_worker =
       some { coro_addr := effectiveReconnectAddr s } ∧
     (connect s false).1.connect_btn_enabled = false) ∧
    (s.connected = true → toggle_connection s = ((disconnect s).1, none)) := by
  constructor
  · simp [connect, h0, ha]
  · intro hc
    simp [toggle_connection, hc]

/-- Witness for C3's amended theorem at the concrete Connecting state. -/
theorem connect_no_concurrency_guard_witness :
    sampleConnecting.euid = 0 ∧
    optTruthy (effectiveReconnectAddr sampleConnecting) = true ∧
    (connect sampleConnecting false).2 =
      ConnectResult.started (effectiveReconnectAddr sampleConnecting) :=
  ⟨rfl, by decide,
    ((connect_no_concurrency_guard sampleConnecting rfl (by decide)).1).1⟩

/-- C4: the monitor tick is a no-op when not connected; while connected
it takes the loss transition exactly when a liveness-failure indicator
(protocol transport gone, transport closing, or `_itr_sock` missing) is
positive, and otherwise changes nothing; and the tick is idempotent, so
the loss transition is never taken twice. -/
theorem check_connection_status_spec (s : GUIState) :
    (s.connected = false → check_connection_status s = s) ∧
    (s.connected = true →
      (protocolTransportGone s || transportClosingOrInvalid s) = true →
      check_connection_status s = handle_connection_lost s) ∧
    (s.connected = true →
      (protocolTransportGone s || transportClosingOrInvalid s) = false →
      check_connection_status s = s) ∧
    check_connection_status (check_connection_status s) =
      check_connection_status s := by
  refine ⟨?_, ?_, ?_, ?_⟩
  · intro h
    simp [check_connection_status_char, h]
  · intro h hind
    simp [check_connection_status_char, h, hind]
  · intro h hind
    simp [check_connection_status_char, h, hind]
  · rw [check_connection_status_char s]
    by_cases hcond :
        (s.connected && (protocolTransportGone s || transportClosingOrInvalid s)) = true
    · rw [if_pos hcond, check_connection_status_char]
      simp [handle_connection_lost_connected]
    · rw [if_neg hcond, check_connection_status_char, if_neg hcond]

/-- Witness for C4 at the concrete unhealthy connected state. -/
theorem check_connection_status_spec_witness :
    sampleUnhealthy.connected = true ∧
    (protocolTransportGone sampleUnhealthy ||
      transportClosingOrInvalid sampleUnhealthy) = true ∧
    check_connection_status sampleUnhealthy =
      handle_connection_lost sampleUnhealthy :=
  ⟨rfl, rfl, (check_connection_status_spec sampleUnhealthy).2.1 rfl rfl⟩

/-- C5 counterexample: with the loop stopped but never closed (the
program never calls `close()`), `AsyncWorker.run` passes its
availability guard and blocks forever on `future.result()` instead of
failing immediately with the "Async loop not available" message. -/
theorem asyncWorkerRun_stopped_blocks :
    asyncWorkerRun LoopState.stopped true "Success" = WorkerOutcome.blocked ∧
    WorkerOutcome.blocked ≠
      WorkerOutcome.emitted false "Async loop not available" := by
  exact ⟨rfl, by decide⟩

/-- C5 amended: submission fails immediately with the "Async loop not
available" signal when the loop is absent or closed, and `run_async`
itself never waits (absent loop: `None` back at once; closed loop: a
synchronous `RuntimeError`); but with a loop that is stopped without
being closed, the guard passes and the worker thread blocks forever on
the never-completing future. -/
theorem runtime_unavailable_spec (coro_ok : Bool) (coro_err : String) :
    asyncWorkerRun LoopState.absent coro_ok coro_err =
      WorkerOutcome.emitted false "Async loop not available" ∧
    asyncWorkerRun LoopState.closed coro_ok coro_err =
      WorkerOutcome.emitted false "Async loop not available" ∧
    asyncWorkerRun LoopState.stopped coro_ok coro_err =
      WorkerOutcome.blocked ∧
    run_async LoopState.absent = RunAsyncOutcome.noneReturned ∧
    run_async LoopState.closed = RunAsyncOutcome.raisedClosed ∧
    run_async LoopState.stopped = RunAsyncOutcome.futureHandle false :=
  ⟨rfl, rfl, rfl, rfl, rfl, rfl⟩

/-- C6: run as root, `connect(start_fresh := true)` always hands the
factory no address (whatever the entry text, `reconnect_address` or
`_last_connected_address` hold — `connect` never even reads the latter);
with `start_fresh` false a non-empty entry text wins the tie-break, and
the stored `reconnect_address` is used only when the entry is blank. -/
theorem connect_factory_addr (s : GUIState) (h0 : s.euid = 0) :
    ((connect s true).2 = ConnectResult.started none) ∧
    (strTruthy (pyStrip s.reconnect_entry) = true →
      (connect s false).2 = ConnectResult.started (some (pyStrip s.reconnect_entry))) ∧
    (strTruthy (pyStrip s.reconnect_entry) = false →
      optTruthy s.reconnect_address = true →
      (connect s false).2 = ConnectResult.started s.reconnect_address) := by
  refine ⟨?_, ?_, ?_⟩
  · simp [connect, h0]
  · intro he
    simp [connect, h0, effectiveReconnectAddr, pyOrStrOpt, he, optTruthy]
  · intro he ha
    simp [connect, h0, effectiveReconnectAddr, pyOrStrOpt, he, ha]

/-- Witness for C6 at the concrete connected state (entry text set,
stored address set, fresh connect still passes no address). -/
theorem connect_factory_addr_witness :
    sampleConnected.euid = 0 ∧
    strTruthy (pyStrip sampleConnected.reconnect_entry) = true ∧
    (connect sampleConnected true).2 = ConnectResult.started none ∧
    (connect sampleConnected false).2 =
      ConnectResult.started (some (pyStrip sampleConnected.reconnect_entry)) :=
  ⟨rfl, by decide, (connect_factory_addr sampleConnected rfl).1,
    (connect_factory_addr sampleConnected rfl).2.1 (by decide)⟩

/-- C7: `auto_reconnect` with a truthy `_last_connected_address` copies
it into `reconnect_address` and the entry text and (as root, for a
whitespace-free address) starts a connection attempt with exactly that
address — state "Connecting...", worker created; with no usable stored
address it only shows the device-selection dialog and changes nothing,
never inventing an address. -/
theorem auto_reconnect_spec (s : GUIState) :
    (∀ a : String, s.last_connected_address = some a → strTruthy a = true →
      (auto_reconnect s).1.reconnect_address = some a ∧
      (auto_reconnect s).1.reconnect_entry = a ∧
      (s.euid = 0 → pyStrip a = a →
        (auto_reconnect s).2 =
          ReconnectResult.connectAttempt (ConnectResult.started (some a)) ∧
        (auto_reconnect s).1.status_label = "Connecting..." ∧
        (auto_reconnect s).1.connection_worker = some { coro_addr := some a })) ∧
    (optTruthy s.last_connected_address = false →
      auto_reconnect s = (s, ReconnectResult.dialogShown)) := by
  constructor
  · intro a hla hta
    refine ⟨?_, ?_, ?_⟩
    · simpa [auto_reconnect, hla, hta] using
        (connect_preserves_fields
          { s with reconnect_address := some a, reconnect_entry := a } false).1
    · simpa [auto_reconnect, hla, hta] using
        (connect_preserves_fields
          { s with reconnect_address := some a, reconnect_entry := a } false).2.1
    · intro h0 htrim
      simp [auto_reconnect, hla, hta, connect, h0,
        effectiveReconnectAddr, pyOrStrOpt, optTruthy, htrim]
  · intro h
    cases hla : s.last_connected_address with
    | none => simp [auto_reconnect, hla]
    | some a =>
      have hfa : strTruthy a = false := by
        simpa [optTruthy, hla] using h
      simp [auto_reconnect, hla, hfa]

/-- Witness for C7 at the concrete Lost state. -/
theorem auto_reconnect_spec_witness :
    sampleLost.last_connected_address = some "AA:BB:CC:DD:EE:FF" ∧
    strTruthy "AA:BB:CC:DD:EE:FF" = true ∧
    (auto_reconnect sampleLost).2 =
      ReconnectResult.connectAttempt
        (ConnectResult.started (some "AA:BB:CC:DD:EE:FF")) :=
  ⟨rfl, by decide,
    (((auto_reconnect_spec sampleLost).1 "AA:BB:CC:DD:EE:FF" rfl
      (by decide)).2.2 rfl (by decide)).1⟩

/-- C8 counterexample: in the concrete disconnected state with button
`a` still visually pressed, `on_button_release` is not a pure no-op: it
clears the widget's visual pressed state even though the session is not
connected. -/
theorem on_button_release_clears_widget :
    sampleLost.connected = false ∧
    sampleLost.widgets_pressed Button.a = true ∧
    (on_button_release sampleLost Button.a).1.widgets_pressed Button.a = false := by
  exact ⟨rfl, rfl, rfl⟩

/-- C8 amended: while not connected, `on_button_press` is a complete
no-op and submits nothing; `on_button_release` also submits nothing and
leaves `button_states` and every session field unchanged, but it does
clear the named button widget's visual pressed state (other widgets are
untouched). -/
theorem button_guard_spec (s : GUIState) (btn : Button)
    (h : s.connected = false) :
    on_button_press s btn = (s, []) ∧
    (on_button_release s btn).2 = [] ∧
    (on_button_release s btn).1.button_states = s.button_states ∧
    (on_button_release s btn).1.connected = s.connected ∧
    (on_button_release s btn).1.controller_state = s.controller_state ∧
    (on_button_release s btn).1.transport = s.transport ∧
    (on_button_release s btn).1.protocol = s.protocol ∧
    (on_button_release s btn).1.reconnect_address = s.reconnect_address ∧
    (on_button_release s btn).1.reconnect_entry = s.reconnect_entry ∧
    (on_button_release s btn).1.last_connected_address = s.last_connected_address ∧
    (on_button_release s btn).1.current_amiibo = s.current_amiibo ∧
    (on_button_release s btn).1.monitor_running = s.monitor_running ∧
    (on_button_release s btn).1.widgets_pressed btn = false ∧
    (∀ b2 : Button, b2 ≠ btn →
      (on_button_release s btn).1.widgets_pressed b2 = s.widgets_pressed b2) := by
  refine ⟨?_, ?_, ?_, ?_, ?_, ?_, ?_, ?_, ?_, ?_, ?_, ?_, ?_, ?_⟩ <;>
    simp [on_button_press, on_button_release, h]
  intro b2 hb2
  simp [hb2]

/-- Witness for C8's amended theorem at the concrete Lost state. -/
theorem button_guard_spec_witness :
    sampleLost.connected = false ∧
    on_button_press sampleLost Button.b = (sampleLost, []) ∧
    (on_button_release sampleLost Button.b).2 = [] :=
  ⟨rfl, (button_guard_spec sampleLost Button.b rfl).1,
    (button_guard_spec sampleLost Button.b rfl).2.1⟩

/-- C10: on a successful connect completion,
`_last_connected_address` is overwritten exactly when the computed
address is not the "Unknown" placeholder (peer name readable, or a
truthy pending `reconnect_address`); with no transport and no pending
address it keeps its previous value; and it can never end up holding
"Unknown" unless it already did. -/
theorem on_connection_finished_addr_spec (s : GUIState) :
    (computed_addr s = "Unknown" →
      (on_connection_finished s true).last_connected_address =
        s.last_connected_address) ∧
    (computed_addr s ≠ "Unknown" →
      (on_connection_finished s true).last_connected_address =
        some (computed_addr s)) ∧
    (s.transport = none → s.reconnect_address = none →
      computed_addr s = "Unknown" ∧
      (on_connection_finished s true).last_connected_address =
        s.last_connected_address) ∧
    ((on_connection_finished s true).last_connected_address = some "Unknown" →
      s.last_connected_address = some "Unknown") := by
  have hchar : (on_connection_finished s true).last_connected_address =
      if computed_addr s ≠ "Unknown" then some (computed_addr s)
      else s.last_connected_address := by
    simp [on_connection_finished]
  refine ⟨?_, ?_, ?_, ?_⟩
  · intro h
    simp [hchar, h]
  · intro h
    simp [hchar, h]
  · intro ht hr
    have hu : computed_addr s = "Unknown" := by
      simp [computed_addr, ht, hr, pyOrOptStr]
    exact ⟨hu, by simp [hchar, hu]⟩
  · intro h
    by_cases hu : computed_addr s = "Unknown"
    · simpa [hchar, hu] using h
    · rw [hchar, if_pos hu] at h
      exact absurd (Option.some_injective _ h) hu

/-- Witness for C10 at the concrete fresh state (no transport, no
pending address, no stored address). -/
theorem on_connection_finished_addr_spec_witness :
    sampleFresh.transport = none ∧
    sampleFresh.reconnect_address = none ∧
    computed_addr sampleFresh = "Unknown" ∧
    (on_connection_finished sampleFresh true).last_connected_address =
      sampleFresh.last_connected_address :=
  ⟨rfl, rfl, ((on_connection_finished_addr_spec sampleFresh).2.2.1 rfl rfl).1,
    ((on_connection_finished_addr_spec sampleFresh).2.2.1 rfl rfl).2⟩

end JoyControl
